import Mathlib

/-!
Verification of the Brain TUI core (src/brn_tui/main.rs) against its
specification.

The embedding models:
- the selection list with a cyclic cursor (the StatefulList behind
  TuiData.note_list; its code is outside src/, so it is modelled from the
  spec),
- the TuiData session state (note_list, note_content_preview, message),
- BrnTui::show_note_content_preview, BrnTui::open_selected_note,
  BrnTui::increment_selected_value, BrnTui::decrement_selected_value,
- one iteration of the BrnTui::run_app event loop,
- BrnTui::init with its terminal setup/restore sequence.

External collaborators (Database::get_note_id_where, Notes::get_content_of_note,
Notes::open) are parameters: pure functions fixed for a session, with the
opaque Settings handle folded into them since the core passes it through
unmodified.  Terminal side effects (crossterm/tui calls) are recorded in an
explicit trace of TermOp values; each fallible terminal call takes its result
as an explicit parameter, and a Rust .unwrap() on an Err is modelled as the
Outcome.panicked constructor.
-/

namespace Brain

/-- Modelled from the spec: the SelectionList (the StatefulList type behind
TuiData.note_list, whose source file is not under src/).  An ordered sequence
of note labels together with a cyclic cursor; the invariant is
cursor < items.length whenever items is non-empty. -/
structure SelectionList where
  items : List String
  cursor : Nat
deriving Repr, DecidableEq

namespace SelectionList

/-- Modelled from the spec: selected() returns the label at the cursor, or
none when the list is empty. -/
def selected_item (l : SelectionList) : Option String :=
  l.items.get? l.cursor

/-- Modelled from the spec: next() advances the cursor by one with wraparound
(from len-1 back to 0) and is a no-op on an empty list. -/
def next (l : SelectionList) : SelectionList :=
  if l.items.isEmpty then l
  else { l with cursor := if l.cursor = l.items.length - 1 then 0 else l.cursor + 1 }

/-- Modelled from the spec: previous() decrements the cursor by one with
wraparound (from 0 back to len-1) and is a no-op on an empty list. -/
def previous (l : SelectionList) : SelectionList :=
  if l.items.isEmpty then l
  else { l with cursor := if l.cursor = 0 then l.items.length - 1 else l.cursor - 1 }

end SelectionList

/-- The TuiData session state as used by main.rs: the note list, the preview
text of the currently selected note, and the status message. -/
structure TuiData where
  note_list : SelectionList
  note_content_preview : String
  message : String
deriving Repr, DecidableEq

/-- The external collaborators of the controller, fixed for a session.
get_note_id embeds Database::get_note_id_where(NoteProperty::NoteName, name);
get_content embeds Notes::get_content_of_note(id, settings); open_note embeds
Notes::open(id, settings, false).  The opaque Settings handle is folded into
the functions because the core passes it through unmodified. -/
structure Collaborators where
  get_note_id : String → Option String
  get_content : String → Except String String
  open_note : String → Except String Unit

/-- Embedding of BrnTui::show_note_content_preview: if a note is selected and
its name resolves to an id, fetch the content; on success replace the preview,
on failure set the status message. -/
def show_note_content_preview (c : Collaborators) (t : TuiData) : TuiData :=
  match t.note_list.selected_item with
  | none => t
  | some selected_note_name =>
    match c.get_note_id selected_note_name with
    | none => t
    | some note_id =>
      match c.get_content note_id with
      | .ok note_content => { t with note_content_preview := note_content }
      | .error error => { t with message := error }

/-- Embedding of BrnTui::increment_selected_value: advance the selection and
refresh the preview. -/
def increment_selected_value (c : Collaborators) (t : TuiData) : TuiData :=
  show_note_content_preview c { t with note_list := t.note_list.next }

/-- Embedding of BrnTui::decrement_selected_value: move the selection back and
refresh the preview. -/
def decrement_selected_value (c : Collaborators) (t : TuiData) : TuiData :=
  show_note_content_preview c { t with note_list := t.note_list.previous }

/-- One recorded terminal side effect of the controller.  enterAlt stands for
execute!(EnterAlternateScreen, EnableMouseCapture) and leaveAlt for
execute!(LeaveAlternateScreen, DisableMouseCapture); the other constructors
are the remaining crossterm/tui calls of main.rs. -/
inductive TermOp where
  | enableRaw
  | enterAlt
  | drawFrame
  | invokeEditor (id : String)
  | clearTerm
  | disableRaw
  | leaveAlt
  | showCursor
  | printErr (msg : String)
deriving Repr, DecidableEq

/-- Result of running a fragment of the controller: either a normal value, or
a panic raised by a Rust .unwrap() on an Err. -/
inductive Outcome (α : Type) where
  | ok (a : α)
  | panicked (msg : String)
deriving Repr, DecidableEq

/-- Results of the fallible terminal calls made during one loop iteration:
terminal.draw, and the three calls inside open_selected_note, in source
order (execute!(LeaveAlternateScreen, DisableMouseCapture), terminal.clear,
execute!(EnterAlternateScreen, EnableMouseCapture)). -/
structure TermResults where
  draw : Except String Unit
  leave_alt : Except String Unit
  clear : Except String Unit
  enter_alt : Except String Unit
deriving Repr

/-- Embedding of BrnTui::open_selected_note.  If the selected label resolves
to an id: leave the alternate screen, invoke the editor (storing a failure
description into the message), clear the terminal to force a full redraw, and
re-enter the alternate screen.  Each terminal call is recorded in the trace
(also when its result is an error, since the call was made) and its unwrap
panics on an error result. -/
def open_selected_note (c : Collaborators) (r : TermResults) (t : TuiData) :
    Outcome TuiData × List TermOp :=
  match t.note_list.selected_item with
  | none => (.ok t, [])
  | some selected_note_name =>
    match c.get_note_id selected_note_name with
    | none => (.ok t, [])
    | some note_id =>
      match r.leave_alt with
      | .error e => (.panicked e, [.leaveAlt])
      | .ok _ =>
        let t1 : TuiData :=
          match c.open_note note_id with
          | .ok _ => t
          | .error message => { t with message := message }
        match r.clear with
        | .error e => (.panicked e, [.leaveAlt, .invokeEditor note_id, .clearTerm])
        | .ok _ =>
          match r.enter_alt with
          | .error e =>
            (.panicked e, [.leaveAlt, .invokeEditor note_id, .clearTerm, .enterAlt])
          | .ok _ =>
            (.ok t1, [.leaveAlt, .invokeEditor note_id, .clearTerm, .enterAlt])

/-- A key code as matched by run_app: a character key, the arrow keys, enter,
or any other key (the catch-all arm of the source match). -/
inductive KeyCode where
  | char (ch : Char)
  | down
  | up
  | enter
  | otherKey
deriving Repr, DecidableEq

/-- A terminal event: a key event, or any other event (resize, mouse, ...),
which the source if-let discards. -/
inductive Event where
  | key (code : KeyCode)
  | otherEvent
deriving Repr, DecidableEq

/-- Result of one iteration of the run_app loop: terminate (the q arm returns
Ok(()) from run_app) or continue with the new state. -/
inductive StepResult where
  | quit (t : TuiData)
  | cont (t : TuiData)
deriving Repr, DecidableEq

/-- Embedding of one iteration of the BrnTui::run_app loop: draw the frame
(unwrap panics if drawing fails), then read one event; an Err from
event::read or a non-key event is discarded, and a key is dispatched exactly
as the source match on key.code. -/
def run_app_step (c : Collaborators) (r : TermResults)
    (read_result : Except String Event) (t : TuiData) :
    Outcome StepResult × List TermOp :=
  match r.draw with
  | .error e => (.panicked e, [.drawFrame])
  | .ok _ =>
    match read_result with
    | .ok (.key key) =>
      if key = .char 'q' then
        (.ok (.quit t), [.drawFrame])
      else if key = .char 'j' ∨ key = .down then
        (.ok (.cont (increment_selected_value c t)), [.drawFrame])
      else if key = .char 'k' ∨ key = .up then
        (.ok (.cont (decrement_selected_value c t)), [.drawFrame])
      else if key = .char 'l' ∨ key = .enter then
        match open_selected_note c r t with
        | (.ok t1, ops) => (.ok (.cont t1), .drawFrame :: ops)
        | (.panicked e, ops) => (.panicked e, .drawFrame :: ops)
      else
        (.ok (.cont t), [.drawFrame])
    | _ => (.ok (.cont t), [.drawFrame])

/-- Results of the fallible calls made by BrnTui::init, in source order:
enable_raw_mode, execute!(EnterAlternateScreen, EnableMouseCapture), the
io::Result returned by run_app, disable_raw_mode,
execute!(LeaveAlternateScreen, DisableMouseCapture), and
terminal.show_cursor. -/
structure InitResults where
  enable_raw : Except String Unit
  startup_enter_alt : Except String Unit
  run_app_result : Except String Unit
  disable_raw : Except String Unit
  shutdown_leave_alt : Except String Unit
  show_cursor : Except String Unit
deriving Repr

/-- Embedding of BrnTui::init: acquire raw mode and the alternate screen
(each unwrap panics on failure), run the event loop, then restore the
terminal — disable raw mode, leave the alternate screen, show the cursor —
each restore call unwrapped, and finally print the error returned by run_app
if there was one.  The event loop itself is abstracted by its io::Result
(run_app_result); its own terminal effects are modelled by run_app_step. -/
def init (r : InitResults) : Outcome Unit × List TermOp :=
  match r.enable_raw with
  | .error e => (.panicked e, [.enableRaw])
  | .ok _ =>
    match r.startup_enter_alt with
    | .error e => (.panicked e, [.enableRaw, .enterAlt])
    | .ok _ =>
      match r.disable_raw with
      | .error e => (.panicked e, [.enableRaw, .enterAlt, .disableRaw])
      | .ok _ =>
        match r.shutdown_leave_alt with
        | .error e => (.panicked e, [.enableRaw, .enterAlt, .disableRaw, .leaveAlt])
        | .ok _ =>
          match r.show_cursor with
          | .error e =>
            (.panicked e, [.enableRaw, .enterAlt, .disableRaw, .leaveAlt, .showCursor])
          | .ok _ =>
            match r.run_app_result with
            | .error error =>
              (.ok (), [.enableRaw, .enterAlt, .disableRaw, .leaveAlt, .showCursor,
                .printErr error])
            | .ok _ =>
              (.ok (), [.enableRaw, .enterAlt, .disableRaw, .leaveAlt, .showCursor])

namespace SelectionList

theorem next_items (l : SelectionList) : l.next.items = l.items := by
  unfold next
  split <;> rfl

theorem previous_items (l : SelectionList) : l.previous.items = l.items := by
  unfold previous
  split <;> rfl

theorem isEmpty_false_of_cursor_lt (l : SelectionList)
    (h : l.cursor < l.items.length) : l.items.isEmpty = false := by
  cases hi : l.items with
  | nil => rw [hi] at h; simp at h
  | cons a as => rfl

theorem next_cursor (l : SelectionList) (h : l.cursor < l.items.length) :
    l.next.cursor = (l.cursor + 1) % l.items.length := by
  have hne := isEmpty_false_of_cursor_lt l h
  simp only [next, hne, Bool.false_eq_true, if_false]
  by_cases hc : l.cursor = l.items.length - 1
  · rw [if_pos hc]
    have h1 : l.cursor + 1 = l.items.length := by omega
    rw [h1, Nat.mod_self]
  · rw [if_neg hc]
    exact (Nat.mod_eq_of_lt (by omega)).symm

theorem previous_cursor (l : SelectionList) (h : l.cursor < l.items.length) :
    l.previous.cursor = (l.cursor + (l.items.length - 1)) % l.items.length := by
  have hne := isEmpty_false_of_cursor_lt l h
  simp only [previous, hne, Bool.false_eq_true, if_false]
  by_cases hc : l.cursor = 0
  · rw [if_pos hc, hc, Nat.zero_add]
    exact (Nat.mod_eq_of_lt (by omega)).symm
  · rw [if_neg hc]
    have h1 : l.cursor + (l.items.length - 1) = (l.cursor - 1) + l.items.length := by
      omega
    rw [h1, Nat.add_mod_right, Nat.mod_eq_of_lt (by omega)]

theorem next_iterate (l : SelectionList) (h : l.cursor < l.items.length) (k : Nat) :
    (SelectionList.next^[k] l).items = l.items ∧
    (SelectionList.next^[k] l).cursor = (l.cursor + k) % l.items.length := by
  induction k with
  | zero =>
    refine ⟨rfl, ?_⟩
    simp only [Function.iterate_zero, id_eq, Nat.add_zero]
    exact (Nat.mod_eq_of_lt h).symm
  | succ k ih =>
    obtain ⟨ih1, ih2⟩ := ih
    rw [Function.iterate_succ_apply']
    have hpos : 0 < l.items.length := by omega
    have hlt : (SelectionList.next^[k] l).cursor
        < (SelectionList.next^[k] l).items.length := by
      rw [ih1, ih2]
      exact Nat.mod_lt _ hpos
    refine ⟨by rw [next_items, ih1], ?_⟩
    rw [next_cursor _ hlt, ih2, ih1, Nat.mod_add_mod, Nat.add_assoc]

theorem previous_iterate (l : SelectionList) (h : l.cursor < l.items.length)
    (k : Nat) :
    (SelectionList.previous^[k] l).items = l.items ∧
    (SelectionList.previous^[k] l).cursor
      = (l.cursor + k * (l.items.length - 1)) % l.items.length := by
  induction k with
  | zero =>
    refine ⟨rfl, ?_⟩
    simp only [Function.iterate_zero, id_eq, Nat.zero_mul, Nat.add_zero]
    exact (Nat.mod_eq_of_lt h).symm
  | succ k ih =>
    obtain ⟨ih1, ih2⟩ := ih
    rw [Function.iterate_succ_apply']
    have hpos : 0 < l.items.length := by omega
    have hlt : (SelectionList.previous^[k] l).cursor
        < (SelectionList.previous^[k] l).items.length := by
      rw [ih1, ih2]
      exact Nat.mod_lt _ hpos
    refine ⟨by rw [previous_items, ih1], ?_⟩
    rw [previous_cursor _ hlt, ih2, ih1, Nat.mod_add_mod, Nat.succ_mul,
      ← Nat.add_assoc]

end SelectionList

/-- Claim C6: for every selection list satisfying the cursor invariant
(cursor < length, hence non-empty), iterating next() length-many times
returns the cursor to its original value, likewise for previous(), and
next() followed by previous() (and vice versa) is the identity on the
cursor. -/
theorem C6_cyclic_navigation (l : SelectionList) (h : l.cursor < l.items.length) :
    (SelectionList.next^[l.items.length] l).cursor = l.cursor ∧
    (SelectionList.previous^[l.items.length] l).cursor = l.cursor ∧
    l.next.previous.cursor = l.cursor ∧
    l.previous.next.cursor = l.cursor := by
  have hpos : 0 < l.items.length := by omega
  refine ⟨?_, ?_, ?_, ?_⟩
  · rw [(SelectionList.next_iterate l h _).2, Nat.add_mod_right,
      Nat.mod_eq_of_lt h]
  · rw [(SelectionList.previous_iterate l h _).2, Nat.mul_comm,
      Nat.add_mul_mod_self_right, Nat.mod_eq_of_lt h]
  · have h1 : l.next.cursor < l.next.items.length := by
      rw [SelectionList.next_items, SelectionList.next_cursor l h]
      exact Nat.mod_lt _ hpos
    rw [SelectionList.previous_cursor _ h1, SelectionList.next_items,
      SelectionList.next_cursor l h, Nat.mod_add_mod]
    have h2 : l.cursor + 1 + (l.items.length - 1) = l.cursor + l.items.length := by
      omega
    rw [h2, Nat.add_mod_right, Nat.mod_eq_of_lt h]
  · have h1 : l.previous.cursor < l.previous.items.length := by
      rw [SelectionList.previous_items, SelectionList.previous_cursor l h]
      exact Nat.mod_lt _ hpos
    rw [SelectionList.next_cursor _ h1, SelectionList.previous_items,
      SelectionList.previous_cursor l h, Nat.mod_add_mod]
    have h2 : l.cursor + (l.items.length - 1) + 1 = l.cursor + l.items.length := by
      omega
    rw [h2, Nat.add_mod_right, Nat.mod_eq_of_lt h]

/-- Witness for C6 at the concrete list of three labels with cursor 0. -/
theorem C6_cyclic_navigation_witness :
    (⟨["alpha", "beta", "gamma"], 0⟩ : SelectionList).cursor
        < (⟨["alpha", "beta", "gamma"], 0⟩ : SelectionList).items.length ∧
    ((SelectionList.next^[(⟨["alpha", "beta", "gamma"], 0⟩ :
          SelectionList).items.length]
        (⟨["alpha", "beta", "gamma"], 0⟩ : SelectionList)).cursor
      = (⟨["alpha", "beta", "gamma"], 0⟩ : SelectionList).cursor ∧
     (SelectionList.previous^[(⟨["alpha", "beta", "gamma"], 0⟩ :
          SelectionList).items.length]
        (⟨["alpha", "beta", "gamma"], 0⟩ : SelectionList)).cursor
      = (⟨["alpha", "beta", "gamma"], 0⟩ : SelectionList).cursor ∧
     (⟨["alpha", "beta", "gamma"], 0⟩ : SelectionList).next.previous.cursor
      = (⟨["alpha", "beta", "gamma"], 0⟩ : SelectionList).cursor ∧
     (⟨["alpha", "beta", "gamma"], 0⟩ : SelectionList).previous.next.cursor
      = (⟨["alpha", "beta", "gamma"], 0⟩ : SelectionList).cursor) :=
  ⟨by decide, C6_cyclic_navigation ⟨["alpha", "beta", "gamma"], 0⟩ (by decide)⟩

theorem selected_item_of_items_nil (l : SelectionList) (hl : l.items = []) :
    l.selected_item = none := by
  unfold SelectionList.selected_item
  rw [hl]
  rfl

theorem show_note_content_preview_of_no_selection (c : Collaborators)
    (t : TuiData) (h : t.note_list.selected_item = none) :
    show_note_content_preview c t = t := by
  unfold show_note_content_preview
  rw [h]

theorem show_note_content_preview_note_list (c : Collaborators) (t : TuiData) :
    (show_note_content_preview c t).note_list = t.note_list := by
  unfold show_note_content_preview
  split
  · rfl
  · split
    · rfl
    · split <;> rfl

theorem show_note_content_preview_idem (c : Collaborators) (t : TuiData) :
    show_note_content_preview c (show_note_content_preview c t)
      = show_note_content_preview c t := by
  cases hsel : t.note_list.selected_item with
  | none => simp [show_note_content_preview, hsel]
  | some name =>
    cases hid : c.get_note_id name with
    | none => simp [show_note_content_preview, hsel, hid]
    | some id =>
      cases hc : c.get_content id with
      | ok note_content => simp [show_note_content_preview, hsel, hid, hc]
      | error e => simp [show_note_content_preview, hsel, hid, hc]

/-- Claim C7: on an empty selection list, next(), previous() and
selected_item() are total no-ops (the list is left empty, nothing panics,
nothing is selected), and the preview refresh leaves the whole session state
untouched. -/
theorem C7_empty_list_safe (l : SelectionList) (c : Collaborators) (t : TuiData)
    (hl : l.items = []) (ht : t.note_list.items = []) :
    l.next = l ∧ l.previous = l ∧ l.selected_item = none ∧
    show_note_content_preview c t = t := by
  have hinner : l.items.isEmpty = true := by rw [hl]; rfl
  refine ⟨?_, ?_, selected_item_of_items_nil l hl, ?_⟩
  · unfold SelectionList.next
    rw [if_pos hinner]
  · unfold SelectionList.previous
    rw [if_pos hinner]
  · exact show_note_content_preview_of_no_selection c t
      (selected_item_of_items_nil t.note_list ht)

/-- Witness for C7 at the empty list and an empty-list session state. -/
theorem C7_empty_list_safe_witness :
    ((⟨[], 0⟩ : SelectionList).items = [] ∧
     (⟨⟨[], 0⟩, "stale preview", "old message"⟩ : TuiData).note_list.items = []) ∧
    ((⟨[], 0⟩ : SelectionList).next = ⟨[], 0⟩ ∧
     (⟨[], 0⟩ : SelectionList).previous = ⟨[], 0⟩ ∧
     (⟨[], 0⟩ : SelectionList).selected_item = none ∧
     show_note_content_preview
        ⟨fun _ => none, fun _ => Except.error "read failed", fun _ => Except.ok ()⟩
        ⟨⟨[], 0⟩, "stale preview", "old message"⟩
       = ⟨⟨[], 0⟩, "stale preview", "old message"⟩) :=
  ⟨⟨rfl, rfl⟩,
    C7_empty_list_safe ⟨[], 0⟩
      ⟨fun _ => none, fun _ => Except.error "read failed", fun _ => Except.ok ()⟩
      ⟨⟨[], 0⟩, "stale preview", "old message"⟩ rfl rfl⟩

/-- Claim C8: the preview refresh is idempotent: with the collaborators
fixed, refreshing twice in a row yields the same preview text as refreshing
once. -/
theorem C8_preview_refresh_idempotent (c : Collaborators) (t : TuiData) :
    (show_note_content_preview c
        (show_note_content_preview c t)).note_content_preview
      = (show_note_content_preview c t).note_content_preview := by
  rw [show_note_content_preview_idem]

/-- Claim C3: when the selected label resolves to an id, a failing content
read sets the status message to the failure description and leaves the
preview text at its prior value, while a successful read replaces the
preview text (and touches nothing else). -/
theorem C3_preview_read_result (c : Collaborators) (t : TuiData)
    (name id : String)
    (hsel : t.note_list.selected_item = some name)
    (hid : c.get_note_id name = some id) :
    (∀ e, c.get_content id = .error e →
      show_note_content_preview c t = { t with message := e }) ∧
    (∀ note_content, c.get_content id = .ok note_content →
      show_note_content_preview c t
        = { t with note_content_preview := note_content }) := by
  constructor
  · intro e hc
    simp [show_note_content_preview, hsel, hid, hc]
  · intro note_content hc
    simp [show_note_content_preview, hsel, hid, hc]

/-- Witness for C3: the selected note resolves but the content read fails
with the description of scenario C; the message becomes that description and
the preview keeps its prior value. -/
theorem C3_preview_read_result_witness :
    ((⟨⟨["beta"], 0⟩, "prior preview", ""⟩ : TuiData).note_list.selected_item
        = some "beta" ∧
     (⟨fun _ => some "id7", fun _ => Except.error "not found",
        fun _ => Except.ok ()⟩ : Collaborators).get_note_id "beta"
        = some "id7" ∧
     (⟨fun _ => some "id7", fun _ => Except.error "not found",
        fun _ => Except.ok ()⟩ : Collaborators).get_content "id7"
        = Except.error "not found") ∧
    show_note_content_preview
        ⟨fun _ => some "id7", fun _ => Except.error "not found",
          fun _ => Except.ok ()⟩
        ⟨⟨["beta"], 0⟩, "prior preview", ""⟩
      = ⟨⟨["beta"], 0⟩, "prior preview", "not found"⟩ :=
  ⟨⟨rfl, rfl, rfl⟩,
    (C3_preview_read_result
      ⟨fun _ => some "id7", fun _ => Except.error "not found",
        fun _ => Except.ok ()⟩
      ⟨⟨["beta"], 0⟩, "prior preview", ""⟩ "beta" "id7" rfl rfl).1
      "not found" rfl⟩

/-- Claim C5: when the selected label has no backing identifier, the open
command does nothing: the state is returned unchanged and no terminal effect
(release, editor invocation, re-acquire) is recorded. -/
theorem C5_open_lookup_miss (c : Collaborators) (r : TermResults) (t : TuiData)
    (name : String)
    (hsel : t.note_list.selected_item = some name)
    (hid : c.get_note_id name = none) :
    open_selected_note c r t = (.ok t, []) := by
  simp [open_selected_note, hsel, hid]

/-- Witness for C5 at scenario B: note alpha is selected but the index has no
identifier for it, so the open command returns the state unchanged with an
empty effect trace. -/
theorem C5_open_lookup_miss_witness :
    ((⟨⟨["alpha"], 0⟩, "p", ""⟩ : TuiData).note_list.selected_item
        = some "alpha" ∧
     (⟨fun _ => none, fun _ => Except.ok "c", fun _ => Except.ok ()⟩ :
        Collaborators).get_note_id "alpha" = none) ∧
    open_selected_note
        ⟨fun _ => none, fun _ => Except.ok "c", fun _ => Except.ok ()⟩
        ⟨Except.ok (), Except.ok (), Except.ok (), Except.ok ()⟩
        ⟨⟨["alpha"], 0⟩, "p", ""⟩
      = (.ok ⟨⟨["alpha"], 0⟩, "p", ""⟩, []) :=
  ⟨⟨rfl, rfl⟩,
    C5_open_lookup_miss
      ⟨fun _ => none, fun _ => Except.ok "c", fun _ => Except.ok ()⟩
      ⟨Except.ok (), Except.ok (), Except.ok (), Except.ok ()⟩
      ⟨⟨["alpha"], 0⟩, "p", ""⟩ "alpha" rfl rfl⟩

/-- Claim C2: when the selected label resolves to an id and the terminal
calls succeed, the open command records exactly the sequence release,
editor invocation, clear (forced redraw), re-acquire — one release and one
re-acquire, also when the editor fails — and a failing editor invocation
stores its failure description into the message while a successful one
leaves the state unchanged. -/
theorem C2_open_note_sequence (c : Collaborators) (r : TermResults) (t : TuiData)
    (name id : String)
    (hsel : t.note_list.selected_item = some name)
    (hid : c.get_note_id name = some id)
    (hla : r.leave_alt = .ok ()) (hcl : r.clear = .ok ())
    (hea : r.enter_alt = .ok ()) :
    (open_selected_note c r t).snd
        = [.leaveAlt, .invokeEditor id, .clearTerm, .enterAlt] ∧
    ((open_selected_note c r t).snd.count .leaveAlt = 1 ∧
     (open_selected_note c r t).snd.count .enterAlt = 1) ∧
    (∀ msg, c.open_note id = .error msg →
      (open_selected_note c r t).fst = .ok { t with message := msg }) ∧
    (c.open_note id = .ok () →
      (open_selected_note c r t).fst = .ok t) := by
  have htrace : (open_selected_note c r t).snd
      = [.leaveAlt, .invokeEditor id, .clearTerm, .enterAlt] := by
    cases hop : c.open_note id <;>
      simp [open_selected_note, hsel, hid, hla, hcl, hea, hop]
  refine ⟨htrace, ⟨?_, ?_⟩, ?_, ?_⟩
  · rw [htrace]; rfl
  · rw [htrace]; rfl
  · intro msg hop
    simp [open_selected_note, hsel, hid, hla, hcl, hea, hop]
  · intro hop
    simp [open_selected_note, hsel, hid, hla, hcl, hea, hop]

/-- Witness for C2 at scenario D: the editor invocation fails with exit code
1; the effect trace still holds exactly one release and one re-acquire in
order, and the message becomes the failure description. -/
theorem C2_open_note_sequence_witness :
    ((⟨⟨["note1"], 0⟩, "p", ""⟩ : TuiData).note_list.selected_item
        = some "note1" ∧
     (⟨fun _ => some "id1", fun _ => Except.ok "c",
        fun _ => Except.error "exit code 1"⟩ : Collaborators).get_note_id "note1"
        = some "id1" ∧
     (⟨fun _ => some "id1", fun _ => Except.ok "c",
        fun _ => Except.error "exit code 1"⟩ : Collaborators).open_note "id1"
        = Except.error "exit code 1") ∧
    ((open_selected_note
        ⟨fun _ => some "id1", fun _ => Except.ok "c",
          fun _ => Except.error "exit code 1"⟩
        ⟨Except.ok (), Except.ok (), Except.ok (), Except.ok ()⟩
        ⟨⟨["note1"], 0⟩, "p", ""⟩).snd
        = [.leaveAlt, .invokeEditor "id1", .clearTerm, .enterAlt] ∧
     (open_selected_note
        ⟨fun _ => some "id1", fun _ => Except.ok "c",
          fun _ => Except.error "exit code 1"⟩
        ⟨Except.ok (), Except.ok (), Except.ok (), Except.ok ()⟩
        ⟨⟨["note1"], 0⟩, "p", ""⟩).fst
        = .ok ⟨⟨["note1"], 0⟩, "p", "exit code 1"⟩) :=
  ⟨⟨rfl, rfl, rfl⟩,
    ⟨(C2_open_note_sequence
        ⟨fun _ => some "id1", fun _ => Except.ok "c",
          fun _ => Except.error "exit code 1"⟩
        ⟨Except.ok (), Except.ok (), Except.ok (), Except.ok ()⟩
        ⟨⟨["note1"], 0⟩, "p", ""⟩ "note1" "id1" rfl rfl rfl rfl rfl).1,
     (C2_open_note_sequence
        ⟨fun _ => some "id1", fun _ => Except.ok "c",
          fun _ => Except.error "exit code 1"⟩
        ⟨Except.ok (), Except.ok (), Except.ok (), Except.ok ()⟩
        ⟨⟨["note1"], 0⟩, "p", ""⟩ "note1" "id1" rfl rfl rfl rfl rfl).2.2.1
        "exit code 1" rfl⟩⟩

/-- Claim C9: a successful content read during a preview refresh and a
successful editor invocation during the open command both leave the status
message unchanged; the message is only ever overwritten by a failure
description, never cleared. -/
theorem C9_message_not_cleared (c : Collaborators) (r : TermResults)
    (t : TuiData) (name id : String)
    (hsel : t.note_list.selected_item = some name)
    (hid : c.get_note_id name = some id) :
    (∀ note_content, c.get_content id = .ok note_content →
      (show_note_content_preview c t).message = t.message) ∧
    (c.open_note id = .ok () →
      ∀ t1, (open_selected_note c r t).fst = .ok t1 → t1.message = t.message) := by
  constructor
  · intro note_content hc
    simp [show_note_content_preview, hsel, hid, hc]
  · intro hop t1 h1
    cases hla : r.leave_alt with
    | error e => simp [open_selected_note, hsel, hid, hla] at h1
    | ok u =>
      cases hcl : r.clear with
      | error e => simp [open_selected_note, hsel, hid, hla, hcl] at h1
      | ok u2 =>
        cases hea : r.enter_alt with
        | error e => simp [open_selected_note, hsel, hid, hla, hcl, hea] at h1
        | ok u3 =>
          simp [open_selected_note, hsel, hid, hla, hcl, hea, hop] at h1
          rw [← h1]

/-- Witness for C9: with a previously set message, a successful read and a
successful editor invocation both leave the message in place. -/
theorem C9_message_not_cleared_witness :
    ((⟨⟨["n"], 0⟩, "p", "old failure"⟩ : TuiData).note_list.selected_item
        = some "n" ∧
     (⟨fun _ => some "id9", fun _ => Except.ok "text",
        fun _ => Except.ok ()⟩ : Collaborators).get_note_id "n" = some "id9" ∧
     (⟨fun _ => some "id9", fun _ => Except.ok "text",
        fun _ => Except.ok ()⟩ : Collaborators).get_content "id9"
        = Except.ok "text" ∧
     (⟨fun _ => some "id9", fun _ => Except.ok "text",
        fun _ => Except.ok ()⟩ : Collaborators).open_note "id9"
        = Except.ok ()) ∧
    ((show_note_content_preview
        ⟨fun _ => some "id9", fun _ => Except.ok "text", fun _ => Except.ok ()⟩
        ⟨⟨["n"], 0⟩, "p", "old failure"⟩).message
        = (⟨⟨["n"], 0⟩, "p", "old failure"⟩ : TuiData).message ∧
     (⟨⟨["n"], 0⟩, "p", "old failure"⟩ : TuiData).message
        = (⟨⟨["n"], 0⟩, "p", "old failure"⟩ : TuiData).message) :=
  ⟨⟨rfl, rfl, rfl, rfl⟩,
    ⟨(C9_message_not_cleared
        ⟨fun _ => some "id9", fun _ => Except.ok "text", fun _ => Except.ok ()⟩
        ⟨Except.ok (), Except.ok (), Except.ok (), Except.ok ()⟩
        ⟨⟨["n"], 0⟩, "p", "old failure"⟩ "n" "id9" rfl rfl).1 "text" rfl,
     (C9_message_not_cleared
        ⟨fun _ => some "id9", fun _ => Except.ok "text", fun _ => Except.ok ()⟩
        ⟨Except.ok (), Except.ok (), Except.ok (), Except.ok ()⟩
        ⟨⟨["n"], 0⟩, "p", "old failure"⟩ "n" "id9" rfl rfl).2 rfl
        ⟨⟨["n"], 0⟩, "p", "old failure"⟩ rfl⟩⟩

/-- Claim C4: the event-loop input mapping is exactly q to quit, j or down
to next-and-refresh, k or up to previous-and-refresh, l or enter to open;
every other key (and any non-key event) leaves the state unchanged, and the
frame is drawn first on every iteration regardless of the key. -/
theorem C4_input_mapping (c : Collaborators) (r : TermResults) (t : TuiData)
    (hdraw : r.draw = .ok ()) :
    run_app_step c r (.ok (.key (.char 'q'))) t = (.ok (.quit t), [.drawFrame]) ∧
    run_app_step c r (.ok (.key (.char 'j'))) t
      = (.ok (.cont (increment_selected_value c t)), [.drawFrame]) ∧
    run_app_step c r (.ok (.key .down)) t
      = (.ok (.cont (increment_selected_value c t)), [.drawFrame]) ∧
    run_app_step c r (.ok (.key (.char 'k'))) t
      = (.ok (.cont (decrement_selected_value c t)), [.drawFrame]) ∧
    run_app_step c r (.ok (.key .up)) t
      = (.ok (.cont (decrement_selected_value c t)), [.drawFrame]) ∧
    (∀ t1 ops, open_selected_note c r t = (.ok t1, ops) →
      run_app_step c r (.ok (.key (.char 'l'))) t
        = (.ok (.cont t1), .drawFrame :: ops) ∧
      run_app_step c r (.ok (.key .enter)) t
        = (.ok (.cont t1), .drawFrame :: ops)) ∧
    (∀ ch, ch ≠ 'q' → ch ≠ 'j' → ch ≠ 'k' → ch ≠ 'l' →
      run_app_step c r (.ok (.key (.char ch))) t = (.ok (.cont t), [.drawFrame])) ∧
    run_app_step c r (.ok (.key .otherKey)) t = (.ok (.cont t), [.drawFrame]) ∧
    run_app_step c r (.ok .otherEvent) t = (.ok (.cont t), [.drawFrame]) ∧
    (∀ read_result, (run_app_step c r read_result t).snd.head?
      = some TermOp.drawFrame) := by
  refine ⟨?_, ?_, ?_, ?_, ?_, ?_, ?_, ?_, ?_, ?_⟩
  · simp [run_app_step, hdraw]
  · simp [run_app_step, hdraw]
  · simp [run_app_step, hdraw]
  · simp [run_app_step, hdraw]
  · simp [run_app_step, hdraw]
  · intro t1 ops hopen
    constructor <;> simp [run_app_step, hdraw, hopen]
  · intro ch h1 h2 h3 h4
    simp [run_app_step, hdraw, h1, h2, h3, h4]
  · simp [run_app_step, hdraw]
  · simp [run_app_step, hdraw]
  · intro read_result
    unfold run_app_step
    cases r.draw with
    | error e => rfl
    | ok u =>
      cases read_result with
      | error e => rfl
      | ok ev =>
        cases ev with
        | otherEvent => rfl
        | key key =>
          simp only []
          split
          · rfl
          · split
            · rfl
            · split
              · rfl
              · split
                · split <;> rfl
                · rfl

/-- Witness for C4 at a concrete one-note state and concrete collaborators,
checking the quit, navigation, open, ignored-key and always-draw parts. -/
theorem C4_input_mapping_witness :
    (⟨Except.ok (), Except.ok (), Except.ok (), Except.ok ()⟩ :
        TermResults).draw = .ok () ∧
    run_app_step
        ⟨fun _ => some "id1", fun _ => Except.ok "c", fun _ => Except.ok ()⟩
        ⟨Except.ok (), Except.ok (), Except.ok (), Except.ok ()⟩
        (.ok (.key (.char 'q'))) ⟨⟨["n"], 0⟩, "p", ""⟩
      = (.ok (.quit ⟨⟨["n"], 0⟩, "p", ""⟩), [.drawFrame]) ∧
    run_app_step
        ⟨fun _ => some "id1", fun _ => Except.ok "c", fun _ => Except.ok ()⟩
        ⟨Except.ok (), Except.ok (), Except.ok (), Except.ok ()⟩
        (.ok (.key (.char 'x'))) ⟨⟨["n"], 0⟩, "p", ""⟩
      = (.ok (.cont ⟨⟨["n"], 0⟩, "p", ""⟩), [.drawFrame]) :=
  ⟨rfl,
   (C4_input_mapping
      ⟨fun _ => some "id1", fun _ => Except.ok "c", fun _ => Except.ok ()⟩
      ⟨Except.ok (), Except.ok (), Except.ok (), Except.ok ()⟩
      ⟨⟨["n"], 0⟩, "p", ""⟩ rfl).1,
   (C4_input_mapping
      ⟨fun _ => some "id1", fun _ => Except.ok "c", fun _ => Except.ok ()⟩
      ⟨Except.ok (), Except.ok (), Except.ok (), Except.ok ()⟩
      ⟨⟨["n"], 0⟩, "p", ""⟩ rfl).2.2.2.2.2.2.1 'x'
      (by decide) (by decide) (by decide) (by decide)⟩

/-- Claim C10: an Err from event::read is silently discarded by the loop
iteration: the state is unchanged, the iteration does not terminate the loop
(the result is cont, not quit), and only the frame draw happened, so the
loop proceeds to redraw and block on the next event. -/
theorem C10_read_error_discarded (c : Collaborators) (r : TermResults)
    (t : TuiData) (e : String) (hdraw : r.draw = .ok ()) :
    run_app_step c r (.error e) t = (.ok (.cont t), [.drawFrame]) := by
  simp [run_app_step, hdraw]

/-- Witness for C10 at a concrete state and a concrete read failure. -/
theorem C10_read_error_discarded_witness :
    (⟨Except.ok (), Except.ok (), Except.ok (), Except.ok ()⟩ :
        TermResults).draw = .ok () ∧
    run_app_step
        ⟨fun _ => some "id1", fun _ => Except.ok "c", fun _ => Except.ok ()⟩
        ⟨Except.ok (), Except.ok (), Except.ok (), Except.ok ()⟩
        (.error "input broken") ⟨⟨["n"], 0⟩, "p", ""⟩
      = (.ok (.cont ⟨⟨["n"], 0⟩, "p", ""⟩), [.drawFrame]) :=
  ⟨rfl,
   C10_read_error_discarded
      ⟨fun _ => some "id1", fun _ => Except.ok "c", fun _ => Except.ok ()⟩
      ⟨Except.ok (), Except.ok (), Except.ok (), Except.ok ()⟩
      ⟨⟨["n"], 0⟩, "p", ""⟩ "input broken" rfl⟩

/-- Counterexample to claim C1 as stated: when disable_raw_mode fails at
shutdown, init panics through the unwrap (a second unwind) instead of
printing the failure; the trace shows the restoration was cut short and
nothing was printed. -/
theorem C1_restoration_counterexample :
    init ⟨.ok (), .ok (), .ok (), .error "restore failed", .ok (), .ok ()⟩
      = (.panicked "restore failed", [.enableRaw, .enterAlt, .disableRaw]) := rfl

/-- Claim C1 amended: whenever the event loop terminates, the restoration
sequence runs exactly once provided each restore call succeeds, and an error
returned by run_app is printed; but a failure of a restore call is not
printed — its unwrap panics (a second unwind) and the remaining restore
steps are skipped. -/
theorem C1_restoration_once (r : InitResults)
    (h1 : r.enable_raw = .ok ()) (h2 : r.startup_enter_alt = .ok ()) :
    ((r.disable_raw = .ok () ∧ r.shutdown_leave_alt = .ok () ∧
        r.show_cursor = .ok ()) →
      ((init r).snd.count .disableRaw = 1 ∧
       (init r).snd.count .leaveAlt = 1 ∧
       (init r).snd.count .showCursor = 1 ∧
       (init r).fst = .ok () ∧
       (∀ e, r.run_app_result = .error e → .printErr e ∈ (init r).snd))) ∧
    (∀ e, r.disable_raw = .error e →
      (init r).fst = .panicked e ∧
      (init r).snd = [.enableRaw, .enterAlt, .disableRaw]) := by
  constructor
  · rintro ⟨h3, h4, h5⟩
    cases hrun : r.run_app_result with
    | ok u =>
      have htr : (init r).snd
          = [.enableRaw, .enterAlt, .disableRaw, .leaveAlt, .showCursor] := by
        simp [init, h1, h2, h3, h4, h5, hrun]
      refine ⟨by rw [htr]; rfl, by rw [htr]; rfl, by rw [htr]; rfl, ?_, ?_⟩
      · simp [init, h1, h2, h3, h4, h5, hrun]
      · intro e he
        exact absurd he (by simp)
    | error e0 =>
      have htr : (init r).snd
          = [.enableRaw, .enterAlt, .disableRaw, .leaveAlt, .showCursor,
             .printErr e0] := by
        simp [init, h1, h2, h3, h4, h5, hrun]
      refine ⟨by rw [htr]; rfl, by rw [htr]; rfl, by rw [htr]; rfl, ?_, ?_⟩
      · simp [init, h1, h2, h3, h4, h5, hrun]
      · intro e he
        have he2 : e0 = e := by
          simpa using he
        rw [htr, ← he2]
        simp
  · intro e he
    constructor <;> simp [init, h1, h2, he]

/-- Witness for the amended C1: every terminal call succeeds and the event
loop returns an error, which is printed after the single restoration. -/
theorem C1_restoration_once_witness :
    ((⟨.ok (), .ok (), .error "loop failed", .ok (), .ok (), .ok ()⟩ :
        InitResults).enable_raw = .ok () ∧
     (⟨.ok (), .ok (), .error "loop failed", .ok (), .ok (), .ok ()⟩ :
        InitResults).startup_enter_alt = .ok ()) ∧
    ((init ⟨.ok (), .ok (), .error "loop failed", .ok (), .ok (), .ok ()⟩).snd.count
        .disableRaw = 1 ∧
     (init ⟨.ok (), .ok (), .error "loop failed", .ok (), .ok (), .ok ()⟩).snd.count
        .leaveAlt = 1 ∧
     (init ⟨.ok (), .ok (), .error "loop failed", .ok (), .ok (), .ok ()⟩).snd.count
        .showCursor = 1 ∧
     (init ⟨.ok (), .ok (), .error "loop failed", .ok (), .ok (), .ok ()⟩).fst
        = .ok () ∧
     TermOp.printErr "loop failed"
        ∈ (init ⟨.ok (), .ok (), .error "loop failed", .ok (), .ok (), .ok ()⟩).snd) :=
  ⟨⟨rfl, rfl⟩,
    ((C1_restoration_once
        ⟨.ok (), .ok (), .error "loop failed", .ok (), .ok (), .ok ()⟩
        rfl rfl).1 ⟨rfl, rfl, rfl⟩).imp_right
      (fun h => h.imp_right (fun h2 => h2.imp_right
        (fun h3 => h3.imp_right (fun h4 => h4 "loop failed" rfl))))⟩

end Brain
